import Mathlib

/-!
Shallow embedding of the event-reconciliation core of the QPoker client
(the `GamePage` component): the `game:update` handler with its winner
resolution and card-transformation history, the `lobby:update` handler,
the betting-round evaluator `isBettingRoundComplete`, and the join-retry
timer of the mount effect.

Modelling conventions (JavaScript semantics):
- a possibly-absent field is `Option _`; `none` models `undefined`;
- JS truthiness: the empty string and `0` are falsy, every array and
  object (even empty) is truthy;
- a JS object used as a string-keyed map is an association list
  `List (String × _)`, bracket access is `List.lookup`;
- a thrown `TypeError` (property access on `undefined`) is `Except.error`;
- `Date.now()` / time formatting is abstracted by an explicit `now`
  argument (it never influences control flow in the source).
-/

namespace QPoker

/-- JS truthiness of a possibly-absent string field: absent and `""` are falsy. -/
def strTruthy : Option String → Bool
  | none => false
  | some s => s ≠ ""

/-- JS `x || d` for a possibly-absent string `x` (absent or `""` falls back to `d`). -/
def jsOrStr : Option String → String → String
  | none, d => d
  | some s, d => if s = "" then d else s

/-- JS `x || 0` for a possibly-absent number (absent and `0` both give `0`). -/
def jsOrZero : Option Nat → Nat
  | none => 0
  | some n => n

/-- JS `a.includes(b)`: `b` occurs contiguously inside `a`. -/
def strIncludes (s sub : String) : Bool :=
  (List.range (s.data.length + 1)).any (fun i => sub.data.isPrefixOf (s.data.drop i))

/-- JS `===` between a definite string and a possibly-absent one
    (`s === undefined` is `false`). -/
def eqStrOpt (s : String) (o : Option String) : Bool :=
  match o with
  | some t => s = t
  | none => false

/-- JS `===` between two possibly-absent strings
    (`undefined === undefined` is `true`). -/
def eqOptOpt (a b : Option String) : Bool :=
  match a, b with
  | none, none => true
  | some s, some t => s = t
  | _, _ => false

/-- The fields of a player record the embedded handlers read
    (`name` is read through `?.name ||` and may be absent). -/
structure PlayerView where
  name : Option String
  is_active : Bool
deriving DecidableEq

/-- Per-player betting sub-state (`betting_state.players[pid]`). -/
structure BettingView where
  has_folded : Bool
  is_all_in : Bool
  has_acted : Bool
deriving DecidableEq

/-- Model of `gameState.betting_state`; its `players` map may itself be absent
    (the source reads it as `betting_state?.players || {}`). -/
structure BettingState where
  players : Option (List (String × BettingView))
deriving DecidableEq

/-- The game snapshot fields the embedded logic reads.  Presentation-only
    fields (pot, current_bet, community_cards, ...) are omitted. -/
structure GameSnapshot where
  phase : String
  players : List (String × PlayerView)
  betting_state : Option BettingState
deriving DecidableEq

/-- One entry of the `winners` list of a result payload.  Only `player_id` is
    ever used as a map key; the other fields are copied as-is and may be
    absent. -/
structure Winner where
  player_id : String
  winnings : Option Nat
  description : Option String
  hand_rank : Option Nat
deriving DecidableEq

/-- Model of `payload.result.gate_info`. -/
structure GateInfo where
  gate : Option String
  original_card : Option String
  result_card : Option String
deriving DecidableEq

/-- Model of `payload.result`: the optional result payload of a `game:update`.
    `auto_win` and `gate_applied` model the truthiness of those fields. -/
structure ResultPayload where
  auto_win : Bool
  winner : Option String
  winnings : Option Nat
  winners : Option (List Winner)
  gate_applied : Bool
  gate_info : Option GateInfo
deriving DecidableEq

/-- A `game:update` delivery: `payload.state` plus optional `payload.result`. -/
structure GameUpdatePayload where
  state : GameSnapshot
  result : Option ResultPayload
deriving DecidableEq

/-- One element of `winnerInfo.allWinners`. -/
structure AllWinner where
  name : String
  description : Option String
  winnings : Option Nat
deriving DecidableEq

/-- The `winnerInfo` object built by the `game:update` handler. -/
structure WinnerInfo where
  playerName : String
  handDescription : Option String
  handRank : Option Nat
  winnings : Option Nat
  isCurrentPlayer : Bool
  isTie : Bool
  isAutoWin : Bool
  allWinners : List AllWinner
deriving DecidableEq

/-- A thrown JS `TypeError` (property access on `undefined`). -/
inductive JsErr where
  | typeError
deriving DecidableEq

/-- The auto-win guard of the handler:
    `payload.result?.auto_win && payload.result?.winner`. -/
def autoWinCond (r : ResultPayload) : Bool :=
  r.auto_win && strTruthy r.winner

/-- The auto-win branch (lines 125-143): `winnerId = payload.result.winner`,
    `winnerPlayer = payload.state.players[winnerId]`, name falls back to
    `` `Player ${winnerId}` `` through `winnerPlayer?.name ||`. -/
def autoOutcome (payload : GameUpdatePayload) (r : ResultPayload)
    (playerId : String) : WinnerInfo :=
  let winnerId := r.winner.getD ""
  let winnerPlayer := payload.state.players.lookup winnerId
  { playerName := jsOrStr (winnerPlayer.bind (·.name)) ("Player " ++ winnerId)
    handDescription := some "Auto-win (all others folded)"
    handRank := some 0
    winnings := some (jsOrZero r.winnings)
    isCurrentPlayer := winnerId = playerId
    isTie := false
    isAutoWin := true
    allWinners :=
      [{ name := jsOrStr (winnerPlayer.bind (·.name)) ("Player " ++ winnerId)
         description := some "Auto-win (all others folded)"
         winnings := some (jsOrZero r.winnings) }] }

/-- The showdown branch (lines 145-166) for a winners list `w :: ws`
    (`winner = winners[0]`). -/
def showdownOutcome (payload : GameUpdatePayload) (playerId : String)
    (w : Winner) (ws : List Winner) : WinnerInfo :=
  let winners := w :: ws
  let winnerPlayer := payload.state.players.lookup w.player_id
  { playerName := jsOrStr (winnerPlayer.bind (·.name)) ("Player " ++ w.player_id)
    handDescription := w.description
    handRank := w.hand_rank
    winnings := w.winnings
    isCurrentPlayer := winners.any (fun x => x.player_id = playerId)
    isTie := decide (winners.length > 1)
    isAutoWin := false
    allWinners := winners.map (fun x =>
      { name := jsOrStr ((payload.state.players.lookup x.player_id).bind (·.name))
          ("Player " ++ x.player_id)
        description := x.description
        winnings := x.winnings }) }

/-- Lines 121-167 of the `game:update` handler: compute the `winnerInfo`
    value (or `none`) for a delivery; `Except.error` models the `TypeError`
    thrown by `winners[0].player_id` when the winners list is empty (an
    empty JS array is truthy, so `payload.result?.winners` passes the guard
    and `winners[0]` is `undefined`). -/
def resolveWinnerInfo (playerId : String) (payload : GameUpdatePayload) :
    Except JsErr (Option WinnerInfo) :=
  if payload.state.phase = "complete" then
    match payload.result with
    | none => .ok none
    | some r =>
      if autoWinCond r then .ok (some (autoOutcome payload r playerId))
      else
        match r.winners with
        | none => .ok none
        | some [] => .error .typeError
        | some (w :: ws) => .ok (some (showdownOutcome payload playerId w ws))
  else .ok none

/-- One stored entry of the card-transformation history.  The source stores
    `originalCard: gateInfo.original_card` defaulted to `Unknown` (a definite string)
    but `resultCard` and `gate` as-is (possibly `undefined`). -/
structure HistEntry where
  id : String
  timestamp : String
  gate : Option String
  originalCard : String
  resultCard : Option String
  phase : String
deriving DecidableEq

/-- The duplicate check of the `setCardHistory` updater (lines 189-194):
    `entry.originalCard === gateInfo.original_card && entry.resultCard ===
    gateInfo.result_card && entry.gate === gateInfo.gate && entry.phase ===
    payload.state.phase`.  Note the left side of the first `===` is the
    stored (defaulted) string while the right side is the raw field. -/
def entryMatchesGate (gi : GateInfo) (phase : String) (e : HistEntry) : Bool :=
  eqStrOpt e.originalCard gi.original_card &&
  eqOptOpt e.resultCard gi.result_card &&
  eqOptOpt e.gate gi.gate &&
  e.phase = phase

/-- Write the entry list of `pid` in the history map (JS object assignment
    `newHistory[pid] = ...`). -/
def setEntries (hist : List (String × List HistEntry)) (pid : String)
    (entries : List HistEntry) : List (String × List HistEntry) :=
  if (hist.lookup pid).isSome then
    hist.map (fun kv => if kv.1 = pid then (pid, entries) else kv)
  else hist ++ [(pid, entries)]

/-- The `setCardHistory` updater (lines 181-208): look up the list of the player
    (created empty when missing), skip when an entry already matches the
    content of the gate event per `entryMatchesGate`, otherwise push a new entry
    whose `originalCard` is defaulted to `"Unknown"` when the raw field is
    falsy.  `now` abstracts `Date.now()`; it only feeds `id`/`timestamp`. -/
def recordGateEvent (pid : String) (gi : GateInfo) (phase : String) (now : Nat)
    (hist : List (String × List HistEntry)) : List (String × List HistEntry) :=
  let cur := (hist.lookup pid).getD []
  if (cur.find? (entryMatchesGate gi phase)).isSome then
    setEntries hist pid cur
  else
    setEntries hist pid (cur ++
      [{ id := jsOrStr gi.original_card "undefined" ++ "-" ++
           jsOrStr gi.result_card "undefined" ++ "-" ++
           jsOrStr gi.gate "undefined" ++ "-" ++ phase ++ "-" ++ toString now
         timestamp := toString now
         gate := gi.gate
         originalCard := jsOrStr gi.original_card "Unknown"
         resultCard := gi.result_card
         phase := phase }])

/-- The component state the `game:update` handler touches. -/
structure ClientState where
  gameState : Option GameSnapshot
  gatePreview : Option GateInfo
  winnerInfo : Option WinnerInfo
  showWinnerPopup : Bool
  cardHistory : List (String × List HistEntry)
deriving DecidableEq

/-- Component state at mount (`useState` initial values). -/
def initClientState : ClientState :=
  { gameState := none
    gatePreview := none
    winnerInfo := none
    showWinnerPopup := false
    cardHistory := [] }

/-- The popup dismissal buttons (`setShowWinnerPopup(false)`). -/
def dismissPopup (st : ClientState) : ClientState :=
  { st with showWinnerPopup := false }

/-- The gate-tracking tail of the handler (lines 176-210): when the result
    signals `gate_applied` with a `gate_info` and the viewer is a player of
    the snapshot, run the `setCardHistory` updater; otherwise leave the
    history alone. -/
def nextCardHistory (playerId : String) (now : Nat) (payload : GameUpdatePayload)
    (hist : List (String × List HistEntry)) : List (String × List HistEntry) :=
  match payload.result with
  | none => hist
  | some r =>
    if r.gate_applied && r.gate_info.isSome then
      match r.gate_info with
      | some gi =>
        if (payload.state.players.lookup playerId).isSome then
          recordGateEvent playerId gi payload.state.phase now hist
        else hist
      | none => hist
    else hist

/-- The whole `game:update` handler (lines 116-211): store the snapshot,
    clear the pending gate preview unconditionally, compute the winner info
    and show the popup when it is non-null (the two `match wi` fields mirror
    `if (winnerInfo) \x7b setWinnerInfo(winnerInfo); setShowWinnerPopup(true) \x7d`),
    and run the gate-history update.  A delivery on which the source handler
    throws is `Except.error`; the state updates it had scheduled before the
    throw are not modelled, as no claim observes them. -/
def onGameUpdate (playerId : String) (now : Nat) (st : ClientState)
    (payload : GameUpdatePayload) : Except JsErr ClientState :=
  match resolveWinnerInfo playerId payload with
  | .error e => .error e
  | .ok wi =>
    .ok { gameState := some payload.state
          gatePreview := none
          winnerInfo := match wi with | some info => some info | none => st.winnerInfo
          showWinnerPopup := match wi with | some _ => true | none => st.showWinnerPopup
          cardHistory := nextCardHistory playerId now payload st.cardHistory }

/-- The fields of a lobby snapshot the `lobby:update` handler reads
    (`lobby_id` may be absent on a malformed delivery). -/
structure LobbySnapshot where
  lobby_id : Option String
  name : Option String
deriving DecidableEq

/-- The `lobby:update` handler (lines 213-217): replace the held snapshot
    only when the `lobby_id` of the delivery equals the `lobbyId` of the view. -/
def onLobbyUpdate (lobbyId : String) (held : Option LobbySnapshot)
    (lobbyData : LobbySnapshot) : Option LobbySnapshot :=
  if lobbyData.lobby_id = some lobbyId then some lobbyData else held

/-- Embedding of `isBettingRoundComplete` (lines 281-292); `_activePlayers` mirrors the
    unused first computation of the source. -/
def isBettingRoundComplete (gameState : GameSnapshot) : Bool :=
  let _activePlayers :=
    (gameState.players.map Prod.snd).filter (fun p => p.is_active)
  let bettingPlayers :=
    (((gameState.betting_state.map (·.players)).join.getD []).map Prod.snd).filter
      (fun p => !p.has_folded && !p.is_all_in)
  if bettingPlayers.length ≤ 1 then true
  else bettingPlayers.all (fun p => p.has_acted)

/-- The contesting set of `isBettingRoundComplete`: the values of
    `betting_state?.players || \x7b\x7d` that are neither folded nor all-in. -/
def contesting (gameState : GameSnapshot) : List BettingView :=
  (((gameState.betting_state.map (·.players)).join.getD []).map Prod.snd).filter
    (fun p => !p.has_folded && !p.is_all_in)

/-- External stimuli reaching one open table view (one run of the mount
    effect, lines 97-243): a socket `error` delivery, the 1000ms retry
    timer expiring, and the effect cleanup (`clearTimeout` plus
    `socket.off`). -/
inductive SessEvent where
  | socketError (detail : String)
  | timerFire
  | cleanup
deriving DecidableEq

/-- Observable state of one open table view.  `errorNow` is the current
    value of the `error` React state (what the next render reads);
    `errorAtEffect` is the value of the `error` binding that the mount
    effect closed over.  The `setTimeout` callback of line 109 reads the
    latter: in React, `setError` makes a future render bind a new `error`
    constant, but it never changes the constant captured by the
    already-created callback, so for an effect run the captured value is
    fixed at what `error` was when the effect ran. -/
structure OpenState where
  errorNow : Option String
  errorAtEffect : Option String
  timerActive : Bool
  joinEmits : Nat
  closed : Bool
deriving DecidableEq

/-- State right after the mount effect runs on a fresh view: `error` is
    `useState(null)` initial, one join intent was already emitted
    (`joinRoom()` on line 108), and the retry timer is armed. -/
def initOpen : OpenState :=
  { errorNow := none
    errorAtEffect := none
    timerActive := true
    joinEmits := 1
    closed := false }

/-- The guard of the retry callback (line 111):
    `!error || !error.includes('already started')`, evaluated on the
    closed-over `error` value. -/
def retryGuard (err : Option String) : Bool :=
  match err with
  | none => true
  | some s => !(strIncludes s "already started")

/-- The message set by the `error` handler for a permanent rejection
    (line 224). -/
def alreadyStartedMessage : String :=
  "This game has already started. You cannot join an ongoing game."

/-- One step of an open table view.  `socketError` follows the `error`
    handler of lines 219-229; `timerFire` runs the line 109 callback with
    its captured `error`; `cleanup` is the effect teardown of lines
    236-242, after which the timer is cleared and the listeners are off,
    so every later event is inert. -/
def stepOpen (st : OpenState) (e : SessEvent) : OpenState :=
  if st.closed then st
  else
    match e with
    | .socketError detail =>
      if detail = "Lobby not found" then st
      else if detail = "Lobby already in game" then
        { st with errorNow := some alreadyStartedMessage }
      else { st with errorNow := some detail }
    | .timerFire =>
      if st.timerActive then
        if retryGuard st.errorAtEffect then
          { st with timerActive := false, joinEmits := st.joinEmits + 1 }
        else { st with timerActive := false }
      else st
    | .cleanup => { st with closed := true, timerActive := false }

/-- Run one open table view over a sequence of stimuli. -/
def runOpen (events : List SessEvent) : OpenState :=
  events.foldl stepOpen initOpen

/-! Concrete inputs for counterexamples and witnesses. -/

/-- Scenario E result: `\x7bauto_win: true, winner: "p2", winnings: 300\x7d`. -/
def resultE : ResultPayload :=
  { auto_win := true, winner := some "p2", winnings := some 300,
    winners := none, gate_applied := false, gate_info := none }

/-- Scenario E delivery: complete phase, `players.p2` lacking a name. -/
def payloadE : GameUpdatePayload :=
  { state := { phase := "complete",
               players := [("p2", { name := none, is_active := true })],
               betting_state := none },
    result := some resultE }

/-- Scenario B winner entry. -/
def winnerB : Winner :=
  { player_id := "p1", winnings := some 120, description := some "Flush",
    hand_rank := some 5 }

/-- Scenario B result: one winner, no auto-win. -/
def resultB : ResultPayload :=
  { auto_win := false, winner := none, winnings := none,
    winners := some [winnerB], gate_applied := false, gate_info := none }

/-- Scenario B delivery, viewed by `"p1"`. -/
def payloadB : GameUpdatePayload :=
  { state := { phase := "complete",
               players := [("p1", { name := some "Alice", is_active := true })],
               betting_state := none },
    result := some resultB }

/-- A result payload carrying neither an auto-win signal nor a winners
    list (for example one that only reports a gate application). -/
def emptyResult : ResultPayload :=
  { auto_win := false, winner := none, winnings := none,
    winners := none, gate_applied := false, gate_info := none }

/-- A complete-phase delivery accompanied by `emptyResult`. -/
def payloadEmptyResult : GameUpdatePayload :=
  { state := { phase := "complete", players := [], betting_state := none },
    result := some emptyResult }

/-- A result payload whose winners list is present but empty. -/
def resultEmptyWinners : ResultPayload :=
  { emptyResult with winners := some [] }

/-- A complete-phase delivery whose result carries an empty winners list. -/
def payloadEmptyWinners : GameUpdatePayload :=
  { state := { phase := "complete", players := [], betting_state := none },
    result := some resultEmptyWinners }

/-- A gate event whose `original_card` is absent. -/
def giNoOriginal : GateInfo :=
  { gate := some "X", original_card := none, result_card := some "7D" }

/-- History after recording `giNoOriginal` once for player `"p1"`. -/
def histAfterOne : List (String × List HistEntry) :=
  recordGateEvent "p1" giNoOriginal "flop" 0 []

/-- History after recording the same gate event a second time. -/
def histAfterTwo : List (String × List HistEntry) :=
  recordGateEvent "p1" giNoOriginal "flop" 1 histAfterOne

/-- A snapshot with no `betting_state` at all. -/
def gNoBetting : GameSnapshot :=
  { phase := "flop",
    players := [("p1", { name := some "A", is_active := true })],
    betting_state := none }

/-- Component state after the first delivery of `payloadE`. -/
def c4s1 : ClientState :=
  ((onGameUpdate "p1" 0 initClientState payloadE).toOption).getD initClientState

/-- Component state after re-delivering `payloadE` once the popup was
    dismissed. -/
def c4s2 : ClientState :=
  ((onGameUpdate "p1" 0 (dismissPopup c4s1) payloadE).toOption).getD initClientState

/-- The outcome the handler produces for Scenario E. -/
def winnerInfoAtE : Option WinnerInfo :=
  (resolveWinnerInfo "p1" payloadE).toOption.join

/-! Helper lemmas: branch equations of `resolveWinnerInfo` and
    `onGameUpdate`. -/

/-- `isBettingRoundComplete` written through `contesting` (the two share
    the contesting-set term verbatim, so this is definitional). -/
lemma isBettingRoundComplete_eq (g : GameSnapshot) :
    isBettingRoundComplete g =
      if (contesting g).length ≤ 1 then true
      else (contesting g).all (fun p => p.has_acted) := rfl

lemma resolve_eq_not_complete (playerId : String) (p : GameUpdatePayload)
    (hphase : ¬ p.state.phase = "complete") :
    resolveWinnerInfo playerId p = .ok none := by
  simp [resolveWinnerInfo, hphase]

lemma resolve_eq_no_result (playerId : String) (p : GameUpdatePayload)
    (hr : p.result = none) :
    resolveWinnerInfo playerId p = .ok none := by
  simp [resolveWinnerInfo, hr]

lemma resolve_eq_auto (playerId : String) (p : GameUpdatePayload)
    (r : ResultPayload) (hphase : p.state.phase = "complete")
    (hr : p.result = some r) (hauto : autoWinCond r = true) :
    resolveWinnerInfo playerId p = .ok (some (autoOutcome p r playerId)) := by
  simp [resolveWinnerInfo, hphase, hr, hauto]

lemma resolve_eq_showdown (playerId : String) (p : GameUpdatePayload)
    (r : ResultPayload) (w : Winner) (ws : List Winner)
    (hphase : p.state.phase = "complete") (hr : p.result = some r)
    (hauto : autoWinCond r = false) (hw : r.winners = some (w :: ws)) :
    resolveWinnerInfo playerId p = .ok (some (showdownOutcome p playerId w ws)) := by
  simp [resolveWinnerInfo, hphase, hr, hauto, hw]

lemma resolve_eq_none_winners (playerId : String) (p : GameUpdatePayload)
    (r : ResultPayload) (hphase : p.state.phase = "complete")
    (hr : p.result = some r) (hauto : autoWinCond r = false)
    (hw : r.winners = none) :
    resolveWinnerInfo playerId p = .ok none := by
  simp [resolveWinnerInfo, hphase, hr, hauto, hw]

lemma resolve_eq_error_empty (playerId : String) (p : GameUpdatePayload)
    (r : ResultPayload) (hphase : p.state.phase = "complete")
    (hr : p.result = some r) (hauto : autoWinCond r = false)
    (hw : r.winners = some []) :
    resolveWinnerInfo playerId p = .error .typeError := by
  simp [resolveWinnerInfo, hphase, hr, hauto, hw]

lemma resolveWinnerInfo_ok (playerId : String) (p : GameUpdatePayload)
    (h : p.state.phase = "complete" → ∀ r, p.result = some r →
         autoWinCond r = false → r.winners ≠ some []) :
    ∃ wi, resolveWinnerInfo playerId p = .ok wi := by
  by_cases hphase : p.state.phase = "complete"
  · cases hp : p.result with
    | none => exact ⟨none, resolve_eq_no_result playerId p hp⟩
    | some r =>
      by_cases hauto : autoWinCond r = true
      · exact ⟨some (autoOutcome p r playerId),
          resolve_eq_auto _ _ _ hphase hp hauto⟩
      · have hfa : autoWinCond r = false := by simpa using hauto
        cases hw : r.winners with
        | none => exact ⟨none, resolve_eq_none_winners _ _ _ hphase hp hfa hw⟩
        | some l =>
          cases l with
          | nil => exact absurd hw (h hphase r hp hfa)
          | cons w ws =>
            exact ⟨some (showdownOutcome p playerId w ws),
              resolve_eq_showdown _ _ _ _ _ hphase hp hfa hw⟩
  · exact ⟨none, resolve_eq_not_complete playerId p hphase⟩

lemma onGameUpdate_ok_some (playerId : String) (now : Nat) (st : ClientState)
    (p : GameUpdatePayload) (info : WinnerInfo)
    (h : resolveWinnerInfo playerId p = .ok (some info)) :
    onGameUpdate playerId now st p =
      .ok { gameState := some p.state
            gatePreview := none
            winnerInfo := some info
            showWinnerPopup := true
            cardHistory := nextCardHistory playerId now p st.cardHistory } := by
  unfold onGameUpdate
  rw [h]

lemma onGameUpdate_ok_of_resolve (playerId : String) (now : Nat)
    (st : ClientState) (p : GameUpdatePayload) (wi : Option WinnerInfo)
    (h : resolveWinnerInfo playerId p = .ok wi) :
    ∃ st', onGameUpdate playerId now st p = .ok st' := by
  unfold onGameUpdate
  rw [h]
  exact ⟨_, rfl⟩

/-! The claims. -/

/-- C1 (amended): for a delivery with complete phase and a result payload,
    the handler yields at most one outcome, by mutually exclusive priority:
    AutoWin when the payload has a truthy auto-win flag and winner, else
    Showdown/Tie when it carries a non-empty winners list; it yields zero
    outcomes when the payload carries neither signal, and throws on an
    empty winners list without auto-win. -/
theorem outcome_resolution_exclusive (playerId : String) (p : GameUpdatePayload)
    (r : ResultPayload) (hphase : p.state.phase = "complete")
    (hr : p.result = some r) :
    (autoWinCond r = true →
      resolveWinnerInfo playerId p = .ok (some (autoOutcome p r playerId)) ∧
      (autoOutcome p r playerId).isAutoWin = true) ∧
    (autoWinCond r = false → ∀ w ws, r.winners = some (w :: ws) →
      resolveWinnerInfo playerId p = .ok (some (showdownOutcome p playerId w ws)) ∧
      (showdownOutcome p playerId w ws).isAutoWin = false) ∧
    (autoWinCond r = false → r.winners = none →
      resolveWinnerInfo playerId p = .ok none) ∧
    (autoWinCond r = false → r.winners = some [] →
      resolveWinnerInfo playerId p = .error .typeError) := by
  refine ⟨fun hauto => ⟨resolve_eq_auto _ _ _ hphase hr hauto, rfl⟩,
    fun hauto w ws hw => ⟨resolve_eq_showdown _ _ _ _ _ hphase hr hauto hw, rfl⟩,
    fun hauto hw => resolve_eq_none_winners _ _ _ hphase hr hauto hw,
    fun hauto hw => resolve_eq_error_empty _ _ _ hphase hr hauto hw⟩

/-- C1 counterexample: a complete-phase delivery whose result payload
    carries neither an auto-win signal nor a winners list produces zero
    outcomes, although a result payload accompanies the complete phase. -/
theorem outcome_zero_with_result_payload :
    payloadEmptyResult.state.phase = "complete" ∧
    payloadEmptyResult.result = some emptyResult ∧
    resolveWinnerInfo "p1" payloadEmptyResult = .ok none :=
  ⟨rfl, rfl, rfl⟩

/-- C1 witness: the theorem applied to Scenario E, an auto-win delivery. -/
theorem outcome_resolution_exclusive_witness :
    resolveWinnerInfo "p1" payloadE = .ok (some (autoOutcome payloadE resultE "p1")) ∧
    (autoOutcome payloadE resultE "p1").isAutoWin = true :=
  (outcome_resolution_exclusive "p1" payloadE resultE rfl rfl).1 rfl

/-- C2: the code evaluated at the failing input — the same gate event with
    `original_card` absent recorded twice for one player stores two records
    with the identical content key `("Unknown", some "7D", some "X",
    "flop")`: the dedup check compares the stored default `"Unknown"`
    against the raw absent field and never matches, so the second call is
    not a no-op and ledger uniqueness is violated. -/
theorem ledger_duplicate_on_missing_original_card :
    ((histAfterTwo.lookup "p1").getD []).map
        (fun e => (e.originalCard, e.resultCard, e.gate, e.phase)) =
      [("Unknown", some "7D", some "X", "flop"),
       ("Unknown", some "7D", some "X", "flop")] := by decide

/-- C3: `isBettingRoundComplete` is true iff the contesting set (entries of
    `betting_state.players` with `has_folded` and `is_all_in` both false)
    has at most one member, or every member has `has_acted`; in particular
    a contesting set of size at most one gives true regardless of
    `has_acted`. -/
theorem isBettingRoundComplete_iff (g : GameSnapshot) :
    isBettingRoundComplete g = true ↔
      (contesting g).length ≤ 1 ∨ ∀ p ∈ contesting g, p.has_acted = true := by
  rw [isBettingRoundComplete_eq]
  split_ifs with h
  · simp [h]
  · simp [List.all_eq_true, h]

/-- C4 (amended): outcome resolution re-runs on every terminal delivery —
    from any prior component state (including one whose outcome was already
    produced and dismissed), a delivery with complete phase and a
    recognized result payload leaves the popup shown and an outcome
    present. -/
theorem terminal_redelivery_reshows_outcome (playerId : String) (now : Nat)
    (st : ClientState) (p : GameUpdatePayload) (r : ResultPayload)
    (hphase : p.state.phase = "complete") (hr : p.result = some r)
    (hres : autoWinCond r = true ∨ ∃ w ws, r.winners = some (w :: ws)) :
    ∃ st', onGameUpdate playerId now st p = .ok st' ∧
      st'.showWinnerPopup = true ∧ st'.winnerInfo.isSome = true := by
  by_cases hauto : autoWinCond r = true
  · exact ⟨_, onGameUpdate_ok_some _ _ _ _ _
      (resolve_eq_auto _ _ _ hphase hr hauto), rfl, rfl⟩
  · have hfa : autoWinCond r = false := by simpa using hauto
    rcases hres with h1 | ⟨w, ws, hw⟩
    · exact absurd h1 hauto
    · exact ⟨_, onGameUpdate_ok_some _ _ _ _ _
        (resolve_eq_showdown _ _ _ _ _ hphase hr hfa hw), rfl, rfl⟩

/-- C4 counterexample: delivering the same terminal auto-win payload a
    second time, after the popup was dismissed, re-produces the same
    outcome and re-shows the popup. -/
theorem outcome_reshown_after_dismissal :
    c4s1.showWinnerPopup = true ∧ c4s1.winnerInfo.isSome = true ∧
    (dismissPopup c4s1).showWinnerPopup = false ∧
    c4s2.showWinnerPopup = true ∧ c4s2.winnerInfo = c4s1.winnerInfo := by
  decide

/-- C4 witness: the theorem applied to the dismissed state and Scenario E. -/
theorem terminal_redelivery_witness :
    ∃ st', onGameUpdate "p1" 0 (dismissPopup c4s1) payloadE = .ok st' ∧
      st'.showWinnerPopup = true ∧ st'.winnerInfo.isSome = true :=
  terminal_redelivery_reshows_outcome "p1" 0 (dismissPopup c4s1) payloadE resultE
    rfl rfl (Or.inl rfl)

/-- C5: the code evaluated at the failing input — a permanent error
    (detail "Lobby already in game") observed well before the 1000ms
    expiry does not suppress the retry: the timer callback reads the
    `error` value captured when the effect ran (still null), so a second
    join intent is emitted even though the permanent message (containing
    "already started") is the current error state at expiry. -/
theorem retry_emitted_despite_permanent_error :
    (runOpen [.socketError "Lobby already in game", .timerFire]).joinEmits = 2 ∧
    strIncludes
      ((runOpen [.socketError "Lobby already in game", .timerFire]).errorNow.getD "")
      "already started" = true := by
  decide

/-- C6 (amended): the AutoWin outcome has description fixed to
    "Auto-win (all others folded)", winnings taken from the payload with
    default 0 when absent, and a display name resolved from the snapshot
    that falls back to `"Player "` followed by the raw winner identifier
    when the player record lacks a truthy name. -/
theorem auto_win_outcome_fields (playerId : String) (p : GameUpdatePayload)
    (r : ResultPayload) (hphase : p.state.phase = "complete")
    (hr : p.result = some r) (hauto : autoWinCond r = true) :
    ∃ info, resolveWinnerInfo playerId p = .ok (some info) ∧
      info.isAutoWin = true ∧
      info.handDescription = some "Auto-win (all others folded)" ∧
      info.winnings = some (jsOrZero r.winnings) ∧
      ((p.state.players.lookup (r.winner.getD "")).bind (fun pl => pl.name) = none →
        info.playerName = "Player " ++ r.winner.getD "") ∧
      (∀ nm, (p.state.players.lookup (r.winner.getD "")).bind (fun pl => pl.name) = some nm →
        nm ≠ "" → info.playerName = nm) := by
  refine ⟨autoOutcome p r playerId, resolve_eq_auto _ _ _ hphase hr hauto,
    rfl, rfl, rfl, fun hname => ?_, fun nm hname hne => ?_⟩
  · simp [autoOutcome, hname, jsOrStr]
  · simp [autoOutcome, hname, jsOrStr, hne]

/-- C6 counterexample (Scenario E): with `players.p2` lacking a name the
    produced display name is "Player p2", not the raw identifier "p2", and
    the fixed description is "Auto-win (all others folded)", not
    "all others folded". -/
theorem auto_win_name_not_raw_identifier :
    winnerInfoAtE.map (fun i => i.playerName) = some "Player p2" ∧
    winnerInfoAtE.map (fun i => i.handDescription) =
      some (some "Auto-win (all others folded)") ∧
    (winnerInfoAtE.map (fun i => i.playerName) = some "p2" → False) ∧
    (winnerInfoAtE.map (fun i => i.handDescription) =
      some (some "all others folded") → False) := by
  decide

/-- C6 witness: the theorem applied to Scenario E. -/
theorem auto_win_outcome_fields_witness :
    ∃ info, resolveWinnerInfo "p1" payloadE = .ok (some info) ∧
      info.isAutoWin = true ∧
      info.handDescription = some "Auto-win (all others folded)" ∧
      info.winnings = some (jsOrZero resultE.winnings) ∧
      ((payloadE.state.players.lookup (resultE.winner.getD "")).bind
          (fun pl => pl.name) = none →
        info.playerName = "Player " ++ resultE.winner.getD "") ∧
      (∀ nm, (payloadE.state.players.lookup (resultE.winner.getD "")).bind
          (fun pl => pl.name) = some nm →
        nm ≠ "" → info.playerName = nm) :=
  auto_win_outcome_fields "p1" payloadE resultE rfl rfl rfl

/-- C7: for a complete-phase delivery with a non-empty winners list and no
    auto-win, the outcome takes the first entry as representative, is a tie
    exactly when the list has more than one entry, marks the viewer exactly
    when the viewer appears anywhere in the list, and carries each winner
    with its own description and winnings. -/
theorem showdown_outcome_fields (playerId : String) (p : GameUpdatePayload)
    (r : ResultPayload) (w : Winner) (ws : List Winner)
    (hphase : p.state.phase = "complete") (hr : p.result = some r)
    (hauto : autoWinCond r = false) (hw : r.winners = some (w :: ws)) :
    ∃ info, resolveWinnerInfo playerId p = .ok (some info) ∧
      info.isAutoWin = false ∧
      info.handDescription = w.description ∧
      info.handRank = w.hand_rank ∧
      info.winnings = w.winnings ∧
      (info.isTie = true ↔ (w :: ws).length > 1) ∧
      (info.isCurrentPlayer = true ↔ ∃ x ∈ w :: ws, x.player_id = playerId) ∧
      info.allWinners.length = (w :: ws).length ∧
      info.allWinners.map (fun a => a.description) =
        (w :: ws).map (fun x => x.description) ∧
      info.allWinners.map (fun a => a.winnings) =
        (w :: ws).map (fun x => x.winnings) := by
  refine ⟨showdownOutcome p playerId w ws,
    resolve_eq_showdown _ _ _ _ _ hphase hr hauto hw,
    rfl, rfl, rfl, rfl, ?_, ?_, ?_, ?_, ?_⟩
  · simp [showdownOutcome]
  · simp [showdownOutcome, List.any_eq_true]
  · simp [showdownOutcome]
  · simp only [showdownOutcome]
    rw [List.map_map]
    rfl
  · simp only [showdownOutcome]
    rw [List.map_map]
    rfl

/-- C7 witness: the theorem applied to Scenario B (viewer "p1", one winner
    with winnings 120 and description "Flush"). -/
theorem showdown_outcome_fields_witness :
    ∃ info, resolveWinnerInfo "p1" payloadB = .ok (some info) ∧
      info.isAutoWin = false ∧
      info.handDescription = winnerB.description ∧
      info.handRank = winnerB.hand_rank ∧
      info.winnings = winnerB.winnings ∧
      (info.isTie = true ↔ (winnerB :: ([] : List Winner)).length > 1) ∧
      (info.isCurrentPlayer = true ↔
        ∃ x ∈ winnerB :: ([] : List Winner), x.player_id = "p1") ∧
      info.allWinners.length = (winnerB :: ([] : List Winner)).length ∧
      info.allWinners.map (fun a => a.description) =
        (winnerB :: ([] : List Winner)).map (fun x => x.description) ∧
      info.allWinners.map (fun a => a.winnings) =
        (winnerB :: ([] : List Winner)).map (fun x => x.winnings) :=
  showdown_outcome_fields "p1" payloadB resultB winnerB [] rfl rfl rfl rfl

/-- C8 (amended): processing a game-update delivery never throws provided
    that, at complete phase, any winners list the result payload carries is
    non-empty; all other missing or partial optional fields are treated as
    absent.  (An empty winners list without auto-win throws while reading
    the first winner.) -/
theorem game_update_no_throw_unless_empty_winners (playerId : String)
    (now : Nat) (st : ClientState) (p : GameUpdatePayload)
    (h : p.state.phase = "complete" → ∀ r, p.result = some r →
         autoWinCond r = false → r.winners ≠ some []) :
    ∃ st', onGameUpdate playerId now st p = .ok st' := by
  obtain ⟨wi, hwi⟩ := resolveWinnerInfo_ok playerId p h
  exact onGameUpdate_ok_of_resolve _ _ _ _ _ hwi

/-- C8 counterexample: a delivery whose result carries an empty winners
    list at complete phase makes the handler throw. -/
theorem game_update_throws_on_empty_winners :
    onGameUpdate "p1" 0 initClientState payloadEmptyWinners =
      .error .typeError := rfl

/-- C8 witness: the theorem applied to Scenario B. -/
theorem game_update_no_throw_witness :
    ∃ st', onGameUpdate "p1" 0 initClientState payloadB = .ok st' :=
  game_update_no_throw_unless_empty_winners "p1" 0 initClientState payloadB
    (by
      intro _ rr hrr _
      simp only [payloadB, Option.some.injEq] at hrr
      subst hrr
      decide)

/-- C9: a lobby-update delivery replaces the held snapshot iff its
    `lobby_id` equals the identifier of the table view; otherwise the held
    state is unchanged. -/
theorem lobby_update_applied_iff (lobbyId : String)
    (held : Option LobbySnapshot) (lobbyData : LobbySnapshot) :
    (lobbyData.lobby_id = some lobbyId →
      onLobbyUpdate lobbyId held lobbyData = some lobbyData) ∧
    (lobbyData.lobby_id ≠ some lobbyId →
      onLobbyUpdate lobbyId held lobbyData = held) := by
  constructor <;> intro h <;> simp [onLobbyUpdate, h]

/-- C10: a snapshot whose `betting_state` is absent, or whose
    `betting_state.players` is absent or empty, makes
    `isBettingRoundComplete` true (the contesting set is empty). -/
theorem betting_complete_when_state_missing (g : GameSnapshot)
    (h : g.betting_state = none ∨ ∃ bs, g.betting_state = some bs ∧
         (bs.players = none ∨ bs.players = some [])) :
    isBettingRoundComplete g = true := by
  have hc : contesting g = [] := by
    unfold contesting
    rcases h with h | ⟨bs, hbs, hp | hp⟩
    · simp [h]
    · simp [hbs, hp]
    · simp [hbs, hp]
  rw [isBettingRoundComplete_eq, hc]
  simp

/-- C10 witness: the theorem applied to a snapshot with no betting state. -/
theorem betting_complete_when_state_missing_witness :
    isBettingRoundComplete gNoBetting = true :=
  betting_complete_when_state_missing gNoBetting (Or.inl rfl)

end QPoker
